import Mathlib

/-!
Shallow embedding of the louis-vton repository core, verified against its
natural-language specification.

Part 1 embeds `src/extension-scraper/background.js` (the Generation Job
Orchestrator): the `generationState` record, the startup-restore callback,
the `chrome.runtime.onMessage` listener, `startGeneration`, `saveState`,
and `fetchImageAsBase64`.  JavaScript `null`/`undefined` string fields
become `Option String`; JS string truthiness (`null`, `undefined` and the
empty string are falsy) is `jsTruthy`.  The network environment
(`fetch`) is passed in explicitly; chrome.storage writes and
`chrome.runtime.sendMessage` notifications are recorded as an ordered
`Action` trace.

Part 2 embeds `scrapeGarmentData` from the popup script (the Page Content
Extraction engine) as a pure function of an abstract `Page` value that
carries exactly the DOM data the source reads.
-/

namespace LouisVton

/-- JavaScript string truthiness: `null`/`undefined`/`""` are falsy. -/
def jsTruthy : Option String → Bool
  | some s => s != ""
  | none => false

/-- Generation status enum: 'idle' | 'generating' | 'complete' | 'error'. -/
inductive Status where
  | idle
  | generating
  | complete
  | error
deriving DecidableEq

/-- The request object sent with START_GENERATION
(`garment_photo` may already be base64 from the popup, otherwise
`garment_url` is fetched by the background worker). -/
structure Request where
  garment_photo : Option String
  garment_url : Option String
  model_photo : String
  description : String
deriving DecidableEq

/-- The `generationState` record of background.js (lines 10-16). -/
structure GenState where
  status : Status
  request : Option Request
  result : Option String
  error : Option String
  startTime : Option Nat
deriving DecidableEq

/-- Initial `generationState` (background.js lines 10-16); the CLEAR_RESULT
handler writes an identical fresh record. -/
def initialGenerationState : GenState :=
  { status := Status.idle, request := none, result := none, error := none,
    startTime := none }

/-- Observable side effects of the background worker, in program order:
assignments to the global `generationState`, `saveState()` writes to
chrome.storage, `chrome.runtime.sendMessage` notifications, and the two
outbound network calls. -/
inductive Action where
  | setState (s : GenState)
  | persist (s : GenState)
  | notifyComplete (s : GenState)
  | notifyError (msg : String)
  | fetchGarment (url : String)
  | callService
deriving DecidableEq

/-- Environment outcome of the `fetch(url)` performed by
`fetchImageAsBase64`: either the promise rejects (network error carrying a
message) or a response arrives with an `ok` flag, a numeric status and the
body converted to a base64 data URL. -/
inductive ImageFetchOutcome where
  | netError (msg : String)
  | httpResp (ok : Bool) (statusCode : Nat) (base64 : String)
deriving DecidableEq

/-- `fetchImageAsBase64` (background.js lines 164-183): one fetch, no retry;
a non-ok response throws `Failed to fetch image: <status>`; a rejection is
rethrown unchanged. -/
def fetchImageAsBase64 : ImageFetchOutcome → Except String String
  | ImageFetchOutcome.netError msg => Except.error msg
  | ImageFetchOutcome.httpResp ok statusCode b64 =>
      if ok then Except.ok b64
      else Except.error ("Failed to fetch image: " ++ toString statusCode)

/-- Parsed JSON body of a `/api/tryon` response (background.js lines
117-128): an optional `error` field and an optional `image_base64` field. -/
structure TryonJson where
  error : Option String
  image_base64 : Option String
deriving DecidableEq

deriving instance DecidableEq for Except

/-- Environment outcome of the `fetch` of POST /api/tryon: rejection,
or a response with `ok`, `status`, and the result of `response.json()`
(`Except.error` when JSON parsing throws). -/
inductive TryonOutcome where
  | netError (msg : String)
  | response (ok : Bool) (statusCode : Nat) (body : Except String TryonJson)
deriving DecidableEq

/-- The success write of `startGeneration` (background.js lines 125-131):
`result.image_base64` is stored as-is (it may be absent), and `startTime`
is read from the CURRENT global `generationState` at write time. -/
def completeWrite (cur : GenState) (request : Request) (img : Option String) :
    GenState :=
  { status := Status.complete, request := some request, result := img,
    error := none, startTime := cur.startTime }

/-- The catch-block write of `startGeneration` (background.js lines
143-149): again `startTime` is read from the current global record. -/
def errorWrite (cur : GenState) (request : Request) (msg : String) : GenState :=
  { status := Status.error, request := some request, result := none,
    error := some msg, startTime := cur.startTime }

/-- Success epilogue: assign the new record, `saveState()`, then notify
(background.js lines 125-139). -/
def finishComplete (cur : GenState) (request : Request) (img : Option String) :
    GenState × List Action :=
  let s := completeWrite cur request img
  (s, [Action.setState s, Action.persist s, Action.notifyComplete s])

/-- Catch epilogue: assign the new record, `saveState()`, then notify
(background.js lines 143-157). -/
def finishError (cur : GenState) (request : Request) (msg : String) :
    GenState × List Action :=
  let s := errorWrite cur request msg
  (s, [Action.setState s, Action.persist s, Action.notifyError msg])

/-- The `/api/tryon` call and response handling of `startGeneration`
(background.js lines 97-158), given the garment bytes obtained so far.
Mirrors: `if (!garmentBase64) throw`, the POST, `if (!response.ok) throw`,
`response.json()`, `if (result.error) throw`, then the success write. -/
def tryonStage (cur : GenState) (request : Request)
    (garmentBase64 : Option String) (tryonEnv : TryonOutcome) :
    GenState × List Action :=
  if !(jsTruthy garmentBase64) then
    finishError cur request "Could not load garment image"
  else
    let fin :=
      match tryonEnv with
      | TryonOutcome.netError msg => finishError cur request msg
      | TryonOutcome.response ok statusCode body =>
          if !ok then
            finishError cur request ("Server error: " ++ toString statusCode)
          else
            match body with
            | Except.error msg => finishError cur request msg
            | Except.ok result =>
                match result.error with
                | some e =>
                    if e != "" then finishError cur request e
                    else finishComplete cur request result.image_base64
                | none => finishComplete cur request result.image_base64
    (fin.1, Action.callService :: fin.2)

/-- The try/catch body of `startGeneration` after the initial state write
(background.js lines 87-158).  `cur` is the global `generationState` as
read at terminal-write time (in an undisturbed run it is the record the
same call just wrote; after an interleaved newer `start` it is the newer
job's record). -/
def runGenerationBody (cur : GenState) (request : Request)
    (fetchEnv : String → ImageFetchOutcome) (tryonEnv : TryonOutcome) :
    GenState × List Action :=
  if !(jsTruthy request.garment_photo) && jsTruthy request.garment_url then
    let url := request.garment_url.getD ""
    match fetchImageAsBase64 (fetchEnv url) with
    | Except.error msg =>
        let fin := finishError cur request msg
        (fin.1, Action.fetchGarment url :: fin.2)
    | Except.ok b64 =>
        let fin := tryonStage cur request (some b64) tryonEnv
        (fin.1, Action.fetchGarment url :: fin.2)
  else
    tryonStage cur request request.garment_photo tryonEnv

/-- The record written synchronously at the top of `startGeneration`
(background.js lines 78-84). -/
def startRecord (request : Request) (now : Nat) : GenState :=
  { status := Status.generating, request := some request, result := none,
    error := none, startTime := some now }

/-- A full undisturbed `startGeneration(request)` run: the synchronous
prefix (assign the Generating record, `saveState()`), then the async body
with the just-written record as the current global state. -/
def startGeneration (request : Request) (now : Nat)
    (fetchEnv : String → ImageFetchOutcome) (tryonEnv : TryonOutcome) :
    GenState × List Action :=
  let g := startRecord request now
  let fin := runGenerationBody g request fetchEnv tryonEnv
  (fin.1, Action.setState g :: Action.persist g :: fin.2)

/-- Responses sent by the `chrome.runtime.onMessage` listener. -/
inductive ChannelResponse where
  | statusSnapshot (s : GenState)
  | started
  | cleared
  | errorResp (msg : String)
deriving DecidableEq

/-- The `chrome.runtime.onMessage` listener (background.js lines 42-72).
Returns the new global state, the synchronous side effects, and the
response.  For START_GENERATION only the synchronous prefix of
`startGeneration` runs before `sendResponse`; the async body continues as
`runGenerationBody`. -/
def onMessage (msgType : String) (request : Request) (now : Nat)
    (s : GenState) : GenState × List Action × ChannelResponse :=
  if msgType = "GET_STATUS" then
    (s, [], ChannelResponse.statusSnapshot s)
  else if msgType = "START_GENERATION" then
    let g := startRecord request now
    (g, [Action.setState g, Action.persist g], ChannelResponse.started)
  else if msgType = "CLEAR_RESULT" then
    (initialGenerationState,
     [Action.setState initialGenerationState,
      Action.persist initialGenerationState],
     ChannelResponse.cleared)
  else
    (s, [], ChannelResponse.errorResp "Unknown message type")

/-- The startup restore callback (background.js lines 19-35): rehydrate the
persisted record if any; a Generating record older than 5 minutes becomes
a persisted Error; JS `Date.now() - null` coerces null to 0. -/
def restoreState (stored : Option GenState) (now : Nat) (mem : GenState) :
    GenState × List Action :=
  match stored with
  | none => (mem, [])
  | some s =>
      if s.status = Status.generating ∧
          5 * 60 * 1000 < now - s.startTime.getD 0 then
        let s' := { s with status := Status.error,
                           error := some "Generation timed out. Please try again." }
        (s', [Action.setState s, Action.setState s', Action.persist s'])
      else
        (s, [Action.setState s])

/-- True iff no outbound network action (garment fetch or service call)
occurs before the first `saveState()` write in the trace. -/
def noNetworkBeforePersist : List Action → Bool
  | [] => true
  | Action.fetchGarment _ :: _ => false
  | Action.callService :: _ => false
  | Action.persist _ :: _ => true
  | Action.setState _ :: rest => noNetworkBeforePersist rest
  | Action.notifyComplete _ :: rest => noNetworkBeforePersist rest
  | Action.notifyError _ :: rest => noNetworkBeforePersist rest

/-- Scans a trace and checks that every notification is preceded by a
`saveState()` of the state it reports: a GENERATION_COMPLETE notification
carries an already-persisted snapshot, and a GENERATION_ERROR message was
already persisted inside an Error record. -/
def notifiedAfterPersist (persisted : List GenState) : List Action → Bool
  | [] => true
  | Action.setState _ :: rest => notifiedAfterPersist persisted rest
  | Action.persist s :: rest => notifiedAfterPersist (s :: persisted) rest
  | Action.notifyComplete s :: rest =>
      (persisted.any fun p => decide (p = s)) && notifiedAfterPersist persisted rest
  | Action.notifyError m :: rest =>
      (persisted.any fun p =>
        decide (p.status = Status.error ∧ p.error = some m)) &&
      notifiedAfterPersist persisted rest
  | Action.fetchGarment _ :: rest => notifiedAfterPersist persisted rest
  | Action.callService :: rest => notifiedAfterPersist persisted rest

/-- Counts garment-fetch attempts in a trace. -/
def countFetches (tr : List Action) : Nat :=
  (tr.filter fun a =>
    match a with
    | Action.fetchGarment _ => true
    | _ => false).length

/-- C3: a START_GENERATION command, from every prior state, immediately
replaces the record with status=Generating, startTime=now, request=r,
result=null, error=null, persists exactly that record, and in the full
run no network action precedes that persist. -/
theorem start_sets_generating_then_persists_then_calls :
    ∀ (prev : GenState) (r : Request) (now : Nat)
      (fetchEnv : String → ImageFetchOutcome) (tryonEnv : TryonOutcome),
      (onMessage "START_GENERATION" r now prev).1
          = { status := Status.generating, request := some r, result := none,
              error := none, startTime := some now }
      ∧ (onMessage "START_GENERATION" r now prev).2.1
          = [Action.setState (startRecord r now), Action.persist (startRecord r now)]
      ∧ (onMessage "START_GENERATION" r now prev).2.2 = ChannelResponse.started
      ∧ (startGeneration r now fetchEnv tryonEnv).2.take 2
          = [Action.setState (startRecord r now), Action.persist (startRecord r now)]
      ∧ noNetworkBeforePersist (startGeneration r now fetchEnv tryonEnv).2 = true := by
  intro prev r now fetchEnv tryonEnv
  exact ⟨rfl, rfl, rfl, rfl, rfl⟩

/-- C10: any Status Channel message whose type is none of GET_STATUS,
START_GENERATION, CLEAR_RESULT gets the response
`error: Unknown message type`, and the job record is untouched: same
state, no assignment, no persist. -/
theorem unknown_message_type_is_noop :
    ∀ (t : String) (r : Request) (now : Nat) (s : GenState),
      t ≠ "GET_STATUS" → t ≠ "START_GENERATION" → t ≠ "CLEAR_RESULT" →
      onMessage t r now s
        = (s, [], ChannelResponse.errorResp "Unknown message type") := by
  intro t r now s h1 h2 h3
  simp [onMessage, h1, h2, h3]

/-- A request already carrying inline garment bytes from the popup. -/
def reqInline : Request :=
  { garment_photo := some "GARMENT64", garment_url := none,
    model_photo := "MODEL64", description := "a shirt" }

/-- Witness for the C10 theorem at the concrete message type PING. -/
theorem unknown_message_type_is_noop_witness :
    onMessage "PING" reqInline 0 initialGenerationState
      = (initialGenerationState, [],
         ChannelResponse.errorResp "Unknown message type") :=
  unknown_message_type_is_noop "PING" reqInline 0 initialGenerationState
    (by decide) (by decide) (by decide)

/-- C2: rehydrating a persisted Generating record whose startTime lies more
than 300000 ms before now yields a persisted Error record with the timeout
message; a Generating record within the threshold is left as Generating;
a non-Generating record is restored unchanged. -/
theorem rehydration_timeout_rule :
    ∀ (s : GenState) (t now : Nat) (mem : GenState),
      (s.status = Status.generating → s.startTime = some t → 300000 < now - t →
        (restoreState (some s) now mem).1
            = { s with status := Status.error,
                       error := some "Generation timed out. Please try again." }
        ∧ Action.persist (restoreState (some s) now mem).1
            ∈ (restoreState (some s) now mem).2)
      ∧ (s.status = Status.generating → s.startTime = some t →
          now - t ≤ 300000 →
          (restoreState (some s) now mem).1 = s
          ∧ (restoreState (some s) now mem).1.status = Status.generating)
      ∧ (s.status ≠ Status.generating →
          (restoreState (some s) now mem).1 = s) := by
  intro s t now mem
  refine ⟨?_, ?_, ?_⟩
  · intro hs hst hlt
    have hcond : s.status = Status.generating ∧
        5 * 60 * 1000 < now - s.startTime.getD 0 := by
      refine ⟨hs, ?_⟩
      rw [hst]
      simpa using hlt
    refine ⟨?_, ?_⟩
    · simp only [restoreState, if_pos hcond]
    · simp only [restoreState, if_pos hcond]
      simp
  · intro hs hst hle
    have hcond : ¬ (s.status = Status.generating ∧
        5 * 60 * 1000 < now - s.startTime.getD 0) := by
      rintro ⟨-, h⟩
      rw [hst] at h
      simp at h
      omega
    refine ⟨?_, ?_⟩
    · simp only [restoreState, if_neg hcond]
    · simp only [restoreState, if_neg hcond]
      exact hs
  · intro hs
    have hcond : ¬ (s.status = Status.generating ∧
        5 * 60 * 1000 < now - s.startTime.getD 0) := by
      rintro ⟨h, -⟩
      exact hs h
    simp only [restoreState, if_neg hcond]

/-- A persisted Generating record begun at time 0, used for witnesses. -/
def storedGenerating : GenState :=
  { status := Status.generating, request := none, result := none,
    error := none, startTime := some 0 }

/-- A persisted Complete record, used for witnesses. -/
def storedComplete : GenState :=
  { status := Status.complete, request := none, result := some "IMG",
    error := none, startTime := some 7 }

/-- Witness for the C2 theorem: a stale Generating record (startTime 0,
now 301000 ms) becomes the persisted timeout Error; a fresh one (now
200000 ms) stays Generating; a Complete record is restored unchanged. -/
theorem rehydration_timeout_rule_witness :
    ((restoreState (some storedGenerating) 301000
        initialGenerationState).1
      = { status := Status.error, request := none, result := none,
          error := some "Generation timed out. Please try again.",
          startTime := some 0 })
    ∧ ((restoreState (some storedGenerating) 200000
        initialGenerationState).1 = storedGenerating)
    ∧ ((restoreState (some storedComplete) 999999999
        initialGenerationState).1 = storedComplete) :=
  ⟨((rehydration_timeout_rule storedGenerating 0 301000
      initialGenerationState).1 rfl rfl (by norm_num)).1,
   ((rehydration_timeout_rule storedGenerating 0 200000
      initialGenerationState).2.1 rfl rfl (by norm_num)).1,
   (rehydration_timeout_rule storedComplete 0 999999999
      initialGenerationState).2.2 (by decide)⟩

lemma notified_finishError (ps : List GenState) (cur : GenState) (r : Request)
    (msg : String) :
    notifiedAfterPersist ps (finishError cur r msg).2 = true := by
  simp [finishError, errorWrite, notifiedAfterPersist]

lemma notified_finishComplete (ps : List GenState) (cur : GenState)
    (r : Request) (img : Option String) :
    notifiedAfterPersist ps (finishComplete cur r img).2 = true := by
  simp [finishComplete, completeWrite, notifiedAfterPersist]

lemma notified_callService (ps : List GenState) (tr : List Action) :
    notifiedAfterPersist ps (Action.callService :: tr)
      = notifiedAfterPersist ps tr := rfl

lemma notified_fetchGarment (ps : List GenState) (u : String)
    (tr : List Action) :
    notifiedAfterPersist ps (Action.fetchGarment u :: tr)
      = notifiedAfterPersist ps tr := rfl

lemma notified_tryonStage (ps : List GenState) (cur : GenState) (r : Request)
    (g : Option String) (env : TryonOutcome) :
    notifiedAfterPersist ps (tryonStage cur r g env).2 = true := by
  unfold tryonStage
  split
  · exact notified_finishError ps cur r _
  · dsimp only
    rw [notified_callService]
    rcases env with msg | ⟨ok, code, body⟩
    · exact notified_finishError ps cur r _
    · dsimp only
      split
      · exact notified_finishError ps cur r _
      · rcases body with msg | result
        · exact notified_finishError ps cur r _
        · dsimp only
          split
          · split
            · exact notified_finishError ps cur r _
            · exact notified_finishComplete ps cur r _
          · exact notified_finishComplete ps cur r _

lemma notified_runGenerationBody (ps : List GenState) (cur : GenState)
    (r : Request) (fetchEnv : String → ImageFetchOutcome)
    (env : TryonOutcome) :
    notifiedAfterPersist ps (runGenerationBody cur r fetchEnv env).2 = true := by
  unfold runGenerationBody
  split
  · dsimp only
    split
    · dsimp only
      rw [notified_fetchGarment]
      exact notified_finishError ps cur r _
    · dsimp only
      rw [notified_fetchGarment]
      exact notified_tryonStage ps cur r _ env
  · exact notified_tryonStage ps cur r _ env

/-- C5: in every `startGeneration` run, each terminal transition
(Complete or Error) is persisted before the corresponding notification is
sent, and the recovery path of the restore callback never notifies at
all. -/
theorem terminal_persist_precedes_notification :
    ∀ (r : Request) (now : Nat) (fetchEnv : String → ImageFetchOutcome)
      (tryonEnv : TryonOutcome) (stored : Option GenState) (mem : GenState),
      notifiedAfterPersist [] (startGeneration r now fetchEnv tryonEnv).2 = true
      ∧ notifiedAfterPersist [] (restoreState stored now mem).2 = true := by
  intro r now fetchEnv tryonEnv stored mem
  constructor
  · show notifiedAfterPersist [startRecord r now]
      (runGenerationBody (startRecord r now) r fetchEnv tryonEnv).2 = true
    exact notified_runGenerationBody _ _ _ _ _
  · rcases stored with - | s
    · rfl
    · dsimp only [restoreState]
      split
      · rfl
      · rfl

/-- C6: when `start` carries a garment URL and no inline bytes and the
garment fetch fails (rejection or non-ok response, surfacing message
`msg`), exactly one fetch attempt is made, the generation service is never
called, and the record ends as Error with that non-empty message and no
result, which is exactly what a subsequent GET_STATUS query returns. -/
theorem fetch_failure_single_attempt_terminal_error :
    ∀ (r : Request) (now : Nat) (fetchEnv : String → ImageFetchOutcome)
      (tryonEnv : TryonOutcome) (msg : String),
      jsTruthy r.garment_photo = false →
      jsTruthy r.garment_url = true →
      fetchImageAsBase64 (fetchEnv (r.garment_url.getD ""))
          = Except.error msg →
      msg ≠ "" →
      countFetches (startGeneration r now fetchEnv tryonEnv).2 = 1
      ∧ Action.callService ∉ (startGeneration r now fetchEnv tryonEnv).2
      ∧ (startGeneration r now fetchEnv tryonEnv).1.status = Status.error
      ∧ (startGeneration r now fetchEnv tryonEnv).1.error = some msg
      ∧ msg ≠ ""
      ∧ (startGeneration r now fetchEnv tryonEnv).1.result = none
      ∧ onMessage "GET_STATUS" r now (startGeneration r now fetchEnv tryonEnv).1
          = ((startGeneration r now fetchEnv tryonEnv).1, [],
             ChannelResponse.statusSnapshot
               (startGeneration r now fetchEnv tryonEnv).1) := by
  intro r now fetchEnv tryonEnv msg h1 h2 h3 h4
  have hrun : startGeneration r now fetchEnv tryonEnv
      = ((finishError (startRecord r now) r msg).1,
         Action.setState (startRecord r now)
           :: Action.persist (startRecord r now)
           :: Action.fetchGarment (r.garment_url.getD "")
           :: (finishError (startRecord r now) r msg).2) := by
    unfold startGeneration runGenerationBody
    rw [h1, h2]
    dsimp only
    rw [h3]
    rfl
  rw [hrun]
  refine ⟨?_, ?_, rfl, rfl, h4, rfl, rfl⟩
  · simp [countFetches, finishError, errorWrite, List.filter]
  · simp [finishError, errorWrite]

/-- A request carrying only a garment URL, no inline bytes. -/
def reqUrl : Request :=
  { garment_photo := none, garment_url := some "http://shop.example/a.jpg",
    model_photo := "MODEL64", description := "a shirt" }

/-- A fetch environment in which every garment fetch rejects. -/
def failingFetchEnv : String → ImageFetchOutcome :=
  fun _ => ImageFetchOutcome.netError "Failed to fetch"

/-- A service environment never consulted in the C6 witness scenario. -/
def unusedTryonEnv : TryonOutcome := TryonOutcome.netError "unused"

/-- Witness for the C6 theorem at a concrete URL-carrying request whose
fetch rejects. -/
theorem fetch_failure_single_attempt_terminal_error_witness :
    countFetches (startGeneration reqUrl 3 failingFetchEnv unusedTryonEnv).2 = 1
    ∧ Action.callService ∉ (startGeneration reqUrl 3 failingFetchEnv unusedTryonEnv).2
    ∧ (startGeneration reqUrl 3 failingFetchEnv unusedTryonEnv).1.status = Status.error
    ∧ (startGeneration reqUrl 3 failingFetchEnv unusedTryonEnv).1.error
        = some "Failed to fetch"
    ∧ "Failed to fetch" ≠ ""
    ∧ (startGeneration reqUrl 3 failingFetchEnv unusedTryonEnv).1.result = none
    ∧ onMessage "GET_STATUS" reqUrl 3
          (startGeneration reqUrl 3 failingFetchEnv unusedTryonEnv).1
        = ((startGeneration reqUrl 3 failingFetchEnv unusedTryonEnv).1, [],
           ChannelResponse.statusSnapshot
             (startGeneration reqUrl 3 failingFetchEnv unusedTryonEnv).1) :=
  fetch_failure_single_attempt_terminal_error reqUrl 3 failingFetchEnv
    unusedTryonEnv "Failed to fetch" rfl rfl rfl (by decide)

/-- First started request in the C1 interleaving scenario. -/
def r1req : Request :=
  { garment_photo := some "GARMENT-ONE", garment_url := none,
    model_photo := "MODEL64", description := "first" }

/-- Second started request in the C1 interleaving scenario. -/
def r2req : Request :=
  { garment_photo := some "GARMENT-TWO", garment_url := none,
    model_photo := "MODEL64", description := "second" }

/-- A service response that succeeds and carries image data. -/
def tryonOkImg : TryonOutcome :=
  TryonOutcome.response true 200 (Except.ok ⟨none, some "IMG1"⟩)

/-- C1 evidence: `start(r1)` is issued at t=0, `start(r2)` supersedes it at
t=1000 (so the current global record is `startRecord r2req 1000`), and then
r1's still-in-flight service call returns success.  The completion handler
of background.js lines 123-139 has no identity/startTime guard: it
unconditionally writes and persists a Complete record for r1 — with r2's
startTime — overwriting r2's job record instead of being discarded. -/
theorem stale_completion_overwrites_newer_job :
    (runGenerationBody (startRecord r2req 1000) r1req failingFetchEnv
        tryonOkImg).1
      = { status := Status.complete, request := some r1req,
          result := some "IMG1", error := none, startTime := some 1000 }
    ∧ (runGenerationBody (startRecord r2req 1000) r1req failingFetchEnv
        tryonOkImg).1.request ≠ some r2req
    ∧ Action.persist (runGenerationBody (startRecord r2req 1000) r1req
        failingFetchEnv tryonOkImg).1
        ∈ (runGenerationBody (startRecord r2req 1000) r1req failingFetchEnv
            tryonOkImg).2 := by
  refine ⟨rfl, by decide, by decide⟩

/-- The set of job records reachable from the initial state through any
sequence of start/clear commands, generation-call completions (with any
environment behaviour, interleaved with any number of newer starts via the
`cur` argument), and startup rehydrations of a persisted record. -/
inductive Reachable : GenState → Prop where
  | init : Reachable initialGenerationState
  | clearCmd {s : GenState} : Reachable s → Reachable initialGenerationState
  | startCmd {s : GenState} (r : Request) (now : Nat) :
      Reachable s → Reachable (startRecord r now)
  | generationEnd {s : GenState} (r : Request)
      (fetchEnv : String → ImageFetchOutcome) (tryonEnv : TryonOutcome) :
      Reachable s → Reachable (runGenerationBody s r fetchEnv tryonEnv).1
  | rehydrate {s : GenState} (now : Nat) (mem : GenState) :
      Reachable s → Reachable (restoreState (some s) now mem).1

lemma tryonStage_shape (cur : GenState) (r : Request) (g : Option String)
    (env : TryonOutcome) :
    (∃ m, (tryonStage cur r g env).1 = errorWrite cur r m)
    ∨ (∃ img, (tryonStage cur r g env).1 = completeWrite cur r img) := by
  unfold tryonStage
  split
  · exact Or.inl ⟨_, rfl⟩
  · dsimp only
    rcases env with msg | ⟨ok, code, body⟩
    · exact Or.inl ⟨_, rfl⟩
    · dsimp only
      split
      · exact Or.inl ⟨_, rfl⟩
      · rcases body with msg | result
        · exact Or.inl ⟨_, rfl⟩
        · dsimp only
          split
          · split
            · exact Or.inl ⟨_, rfl⟩
            · exact Or.inr ⟨_, rfl⟩
          · exact Or.inr ⟨_, rfl⟩

lemma runGenerationBody_shape (cur : GenState) (r : Request)
    (fetchEnv : String → ImageFetchOutcome) (env : TryonOutcome) :
    (∃ m, (runGenerationBody cur r fetchEnv env).1 = errorWrite cur r m)
    ∨ (∃ img, (runGenerationBody cur r fetchEnv env).1
        = completeWrite cur r img) := by
  unfold runGenerationBody
  split
  · dsimp only
    split
    · exact Or.inl ⟨_, rfl⟩
    · exact tryonStage_shape cur r _ env
  · exact tryonStage_shape cur r _ env

/-- C4 amended: in every reachable job record, `error` is present exactly
when status is Error; `result` being present implies status is Complete.
(The converse for `result` fails: a success response with no image data
yields a Complete record with no result, see the counterexample.) -/
theorem reachable_record_invariant :
    ∀ s : GenState, Reachable s →
      (s.error ≠ none ↔ s.status = Status.error)
      ∧ (s.result ≠ none → s.status = Status.complete) := by
  intro s h
  induction h with
  | init => simp [initialGenerationState]
  | clearCmd _ _ => simp [initialGenerationState]
  | startCmd r now _ _ => simp [startRecord]
  | generationEnd r fetchEnv tryonEnv _ _ =>
      rcases runGenerationBody_shape _ r fetchEnv tryonEnv with ⟨m, hm⟩ | ⟨img, him⟩
      · rw [hm]
        simp [errorWrite]
      · rw [him]
        simp [completeWrite]
  | rehydrate now mem _ ih =>
      dsimp only [restoreState]
      split
      · rename_i hcond
        constructor
        · simp
        · intro hres
          exfalso
          have h2 := ih.2 hres
          rw [hcond.1] at h2
          exact Status.noConfusion h2
      · exact ih

/-- Witness for the C4 amended theorem at the reachable initial record. -/
theorem reachable_record_invariant_witness :
    (initialGenerationState.error ≠ none
        ↔ initialGenerationState.status = Status.error)
    ∧ (initialGenerationState.result ≠ none
        → initialGenerationState.status = Status.complete) :=
  reachable_record_invariant initialGenerationState Reachable.init

/-- A service response that is ok, parses, and has no error field — but
also carries no `image_base64` field. -/
def tryonEmptySuccess : TryonOutcome :=
  TryonOutcome.response true 200 (Except.ok ⟨none, none⟩)

/-- C4 counterexample: a reachable record with status Complete and no
result, produced by a start whose service response is a well-formed
success carrying no image data — refuting `result` present iff Complete. -/
theorem complete_without_result_reachable :
    Reachable (startGeneration reqInline 5 failingFetchEnv tryonEmptySuccess).1
    ∧ (startGeneration reqInline 5 failingFetchEnv
        tryonEmptySuccess).1.status = Status.complete
    ∧ (startGeneration reqInline 5 failingFetchEnv
        tryonEmptySuccess).1.result = none := by
  refine ⟨?_, rfl, rfl⟩
  exact Reachable.generationEnd reqInline failingFetchEnv tryonEmptySuccess
    (Reachable.startCmd reqInline 5 Reachable.init)

/-! Part 2: the Page Content Extraction engine (`scrapeGarmentData` in the
popup script).  DOM queries become fields of an abstract `Page` value
carrying exactly the data the source reads; the JS string operations used
by the source (`split` on a single-character separator, `trim`,
`includes`, `startsWith`, `toLowerCase`, `substring(0,n)`, the
`/\s+/g -> ' '` replace, and the case-insensitive noise-phrase replace)
are implemented structurally over character lists so that every claim can
be evaluated on concrete inputs. -/

/-- Character-level prefix test (JS `startsWith` over an explicit list). -/
def startsWithChars : List Char → List Char → Bool
  | [], _ => true
  | _ :: _, [] => false
  | p :: ps, c :: cs => p == c && startsWithChars ps cs

/-- JS `a.includes(b)` on character lists. -/
def hasSubstr : List Char → List Char → Bool
  | l, pat =>
    match l with
    | [] => pat.isEmpty
    | _ :: t => startsWithChars pat l || hasSubstr t pat

/-- JS `a.includes(b)` on strings. -/
def containsSub (s pat : String) : Bool := hasSubstr s.data pat.data

/-- JS `s.startsWith(p)` on strings. -/
def strStartsWith (s pat : String) : Bool := startsWithChars pat.data s.data

/-- JS `s.split(sep)` for a one-character separator. -/
def splitOnCharAux (sep : Char) : List Char → List Char → List (List Char)
  | [], acc => [acc.reverse]
  | c :: t, acc =>
      if c == sep then acc.reverse :: splitOnCharAux sep t []
      else splitOnCharAux sep t (c :: acc)

/-- JS `s.split(sep)` for a one-character separator, from the start. -/
def splitOnChar (sep : Char) (l : List Char) : List (List Char) :=
  splitOnCharAux sep l []

/-- JS `s.trim()`. -/
def trimChars (l : List Char) : List Char :=
  ((l.dropWhile Char.isWhitespace).reverse.dropWhile Char.isWhitespace).reverse

/-- JS `s.trim()` on strings. -/
def trimStr (s : String) : String := String.mk (trimChars s.data)

/-- JS `s.replace(/\s+/g, ' ')`: every maximal whitespace run becomes a
single space. -/
def squashWs : List Char → List Char
  | [] => []
  | [c] => if c.isWhitespace then [' '] else [c]
  | c :: d :: t =>
      if c.isWhitespace && d.isWhitespace then squashWs (d :: t)
      else (if c.isWhitespace then ' ' else c) :: squashWs (d :: t)

/-- JS whitespace-normalisation on strings. -/
def squashStr (s : String) : String := String.mk (squashWs s.data)

/-- JS `s.substring(0, n)` on strings. -/
def takeStr (s : String) (n : Nat) : String := String.mk (s.data.take n)

/-- JS `s.toLowerCase()` on strings. -/
def lowerStr (s : String) : String := String.mk (s.data.map Char.toLower)

/-- One image element as the source reads it: `src`, the two lazy-load
data attributes, rendered natural dimensions, and `srcset`. -/
structure ImgEl where
  src : Option String
  dataSrc : Option String
  dataLazySrc : Option String
  naturalWidth : Nat
  naturalHeight : Nat
  srcset : Option String
deriving DecidableEq

/-- JS `img.src || img.dataset.src || img.dataset.lazySrc`. -/
def primaryUrl (img : ImgEl) : Option String :=
  if jsTruthy img.src then img.src
  else if jsTruthy img.dataSrc then img.dataSrc
  else img.dataLazySrc

/-- The srcset upgrade (popup script lines 285-289): take the last
comma-separated candidate, trim it, take its URL token, and use it if it
starts with http. -/
def srcsetUpgrade (img : ImgEl) (url : String) : String :=
  if jsTruthy img.srcset then
    let srcsetParts := splitOnChar ',' (img.srcset.getD "").data
    let lastPart :=
      String.mk (((splitOnChar ' ' (trimChars (srcsetParts.getLast?.getD []))).headD []))
    if strStartsWith lastPart "http" then lastPart else url
  else url

/-- The per-element candidate filter of the image loop (popup script lines
275-289): primary URL must be http(s), rendered size at least 100 each
way, URL free of the non-product tokens, then the srcset upgrade. -/
def candidateUrl (img : ImgEl) : Option String :=
  let url := (primaryUrl img).getD ""
  if !(strStartsWith url "http") then none
  else if img.naturalWidth < 100 || img.naturalHeight < 100 then none
  else if containsSub url "logo" || containsSub url "icon"
      || containsSub url "sprite" then none
  else some (srcsetUpgrade img url)

/-- JS `url.split('?')[0]`: the dedup key. -/
def stripKey (u : String) : String :=
  String.mk ((splitOnChar '?' u.data).headD [])

/-- The image loop with its `seen` set (popup script lines 274-297). -/
def scrapeImagesLoop : List ImgEl → List String → List String
  | [], _ => []
  | img :: rest, seen =>
      match candidateUrl img with
      | none => scrapeImagesLoop rest seen
      | some url =>
          let key := stripKey url
          if key ∈ seen then scrapeImagesLoop rest seen
          else url :: scrapeImagesLoop rest (key :: seen)

/-- The images part of `scrapeGarmentData`. -/
def scrapeImages (imgs : List ImgEl) : List String := scrapeImagesLoop imgs []

/-- A parsed JSON-LD block after the single-element array unwrap: the
fields the source reads (popup script lines 314-328).  `none` models a
block whose JSON.parse threw (silently ignored). -/
structure LdProduct where
  atType : Option String
  name : Option String
  description : Option String
  material : Option String
  color : Option String
deriving DecidableEq

/-- One element hit by the expandable-section selectors: its visible text
and the prioritized list of associated content-panel texts
(`contentSelectors`, popup script lines 352-359; `none` for an absent
panel or null textContent). -/
structure ExpandMatch where
  text : Option String
  panels : List (Option String)
deriving DecidableEq

/-- The DOM data `scrapeGarmentData` reads, one field per query the
source performs. -/
structure Page where
  imgs : List ImgEl
  h1 : Option String
  ldScripts : List (Option LdProduct)
  expandables : List ExpandMatch
  descTexts : List (Option String)
  metaDescription : Option String
  ogDescription : Option String
deriving DecidableEq

/-- Step 1 (popup script lines 306-309): the first h1 text, trimmed, if
truthy. -/
def step1 (h1 : Option String) : List String :=
  match h1 with
  | some t => if trimStr t != "" then [trimStr t] else []
  | none => []

/-- Step 2 (popup script lines 312-330): one JSON-LD block. -/
def step2one (parts : List String) (d : Option LdProduct) : List String :=
  match d with
  | none => parts
  | some data =>
      if data.atType == some "Product" || jsTruthy data.name then
        let parts :=
          match data.description with
          | some desc =>
              if desc != "" && !(parts.contains desc) then parts ++ [desc]
              else parts
          | none => parts
        let parts :=
          match data.material with
          | some m => if m != "" then parts ++ ["Material: " ++ m] else parts
          | none => parts
        match data.color with
        | some c => if c != "" then parts ++ ["Color: " ++ c] else parts
        | none => parts
      else parts

/-- The keyword vocabulary for expandable sections (popup script lines
333-336). -/
def expandableSectionKeywords : List String :=
  ["description", "fit", "material", "fabric", "composition",
   "details", "product info", "about", "specifications"]

/-- The for-loop over `contentSelectors` (popup script lines 361-371):
first panel whose trimmed text is truthy and longer than 20 chars. -/
def firstPanel : List (Option String) → Option String
  | [] => none
  | p :: rest =>
      match p with
      | some txt =>
          if trimStr txt != "" && decide (20 < (trimStr txt).length) then
            some (trimStr txt)
          else firstPanel rest
      | none => firstPanel rest

/-- Step 3 (popup script lines 346-374): one selector-matched element. -/
def step3one (parts : List String) (e : ExpandMatch) : List String :=
  let text := lowerStr (e.text.getD "")
  if expandableSectionKeywords.any fun kw => containsSub text kw then
    match firstPanel e.panels with
    | some t =>
        let contentText := takeStr (squashStr t) 300
        if parts.any fun p => containsSub p (takeStr contentText 50) then parts
        else parts ++ [contentText]
    | none => parts
  else parts

/-- Step 4 (popup script lines 395-406): one description-container
selector hit. -/
def step4one (parts : List String) (t? : Option String) : List String :=
  match t? with
  | some t =>
      if trimStr t != "" && decide (20 < (trimStr t).length) then
        let text := takeStr (squashStr (trimStr t)) 300
        if parts.any fun p => containsSub p (takeStr text 50) then parts
        else parts ++ [text]
      else parts
  | none => parts

/-- Step 5 (popup script lines 409-412): the meta description tag, used
only if nothing has been collected yet. -/
def step5 (meta : Option String) (parts : List String) : List String :=
  match meta with
  | some c => if c != "" && parts.isEmpty then parts ++ [c] else parts
  | none => parts

/-- Step 6 (popup script lines 415-419): the Open Graph description,
appended unless its 30-char head already occurs in a collected part. -/
def step6 (og : Option String) (parts : List String) : List String :=
  match og with
  | some c =>
      if c != "" && !(parts.any fun p => containsSub p (takeStr c 30)) then
        parts ++ [c]
      else parts
  | none => parts

/-- The description fragments collected by steps 1-4 (before the meta and
Open Graph fallbacks). -/
def partsPreMeta (p : Page) : List String :=
  (p.descTexts.foldl step4one
    (p.expandables.foldl step3one
      (p.ldScripts.foldl step2one (step1 p.h1))))

/-- All collected description fragments, steps 1-6 in source order. -/
def descriptionParts (p : Page) : List String :=
  step6 p.ogDescription (step5 p.metaDescription (partsPreMeta p))

/-- The noise phrases removed case-insensitively at the end (popup script
line 429), in regex-alternation order. -/
def noisePats : List (List Char) :=
  ["read more".data, "show more".data, "view details".data,
   "expand".data, "collapse".data]

/-- Case-insensitive prefix test, mirroring a case-insensitive regex
literal match at the current position. -/
def ciStartsWith : List Char → List Char → Bool
  | [], _ => true
  | _ :: _, [] => false
  | p :: ps, c :: cs => p.toLower == c.toLower && ciStartsWith ps cs

/-- Leftmost-alternative match of the noise patterns at a position,
returning the matched length. -/
def matchNoise : List (List Char) → List Char → Option Nat
  | [], _ => none
  | p :: ps, l => if ciStartsWith p l then some p.length else matchNoise ps l

/-- Global case-insensitive removal of the noise phrases, scanning left to
right and restarting after each match, exactly like
`replace(/read more|show more|view details|expand|collapse/gi, '')`.
Fuel equals the list length so the recursion is structural. -/
def stripNoiseAux : Nat → List Char → List Char
  | 0, _ => []
  | _ + 1, [] => []
  | fuel + 1, c :: t =>
      match matchNoise noisePats (c :: t) with
      | some n => stripNoiseAux fuel (t.drop (n - 1))
      | none => c :: stripNoiseAux fuel t

/-- Noise-phrase removal over a character list. -/
def stripNoise (l : List Char) : List Char := stripNoiseAux l.length l

/-- JS `parts.join(sep)`. -/
def joinSep (sep : List Char) : List (List Char) → List Char
  | [] => []
  | [p] => p
  | p :: q :: rest => p ++ sep ++ joinSep sep (q :: rest)

/-- The final assembly (popup script lines 422-431): filter fragments
longer than 5 chars, join with a delimiter, truncate to 800, remove noise
phrases, collapse whitespace, trim. -/
def finalClean (parts : List String) : String :=
  let kept := parts.filter fun p => p != "" && decide (5 < p.length)
  let description := (joinSep " | ".data (kept.map String.data)).take 800
  String.mk (trimChars (squashWs (stripNoise description)))

/-- The description part of `scrapeGarmentData`. -/
def scrapeDescription (p : Page) : String := finalClean (descriptionParts p)

/-- The return value of `scrapeGarmentData`. -/
structure ExtractionResult where
  images : List String
  description : String
deriving DecidableEq

/-- `scrapeGarmentData` (popup script lines 269-437) as a pure function of
the page data it reads. -/
def scrapeGarmentData (p : Page) : ExtractionResult :=
  { images := scrapeImages p.imgs, description := scrapeDescription p }

/-- Keep-first deduplication by stripped key over an already-filtered url
list, with an explicit seen set; the image loop is this composed with the
per-element candidate filter. -/
def dedupByKey : List String → List String → List String
  | [], _ => []
  | u :: rest, seen =>
      if stripKey u ∈ seen then dedupByKey rest seen
      else u :: dedupByKey rest (stripKey u :: seen)

lemma scrapeImagesLoop_eq_dedup :
    ∀ (imgs : List ImgEl) (seen : List String),
      scrapeImagesLoop imgs seen
        = dedupByKey (imgs.filterMap candidateUrl) seen := by
  intro imgs
  induction imgs with
  | nil => intro seen; rfl
  | cons img rest ih =>
      intro seen
      cases hc : candidateUrl img with
      | none => simp [scrapeImagesLoop, List.filterMap_cons, hc, ih]
      | some url =>
          simp only [scrapeImagesLoop, List.filterMap_cons, hc, dedupByKey]
          by_cases h : stripKey url ∈ seen
          · rw [if_pos h, if_pos h]
            exact ih seen
          · rw [if_neg h, if_neg h, ih]

lemma dedupByKey_sublist :
    ∀ (l : List String) (seen : List String),
      List.Sublist (dedupByKey l seen) l := by
  intro l
  induction l with
  | nil => intro seen; simp [dedupByKey]
  | cons u rest ih =>
      intro seen
      simp only [dedupByKey]
      by_cases h : stripKey u ∈ seen
      · rw [if_pos h]
        exact (ih seen).cons u
      · rw [if_neg h]
        exact (ih (stripKey u :: seen)).cons₂ u

lemma dedupByKey_keys :
    ∀ (l : List String) (seen : List String),
      ((dedupByKey l seen).map stripKey).Nodup
      ∧ ∀ u ∈ dedupByKey l seen, stripKey u ∉ seen := by
  intro l
  induction l with
  | nil => intro seen; simp [dedupByKey]
  | cons u rest ih =>
      intro seen
      simp only [dedupByKey]
      by_cases h : stripKey u ∈ seen
      · rw [if_pos h]
        exact ih seen
      · rw [if_neg h]
        obtain ⟨hnd, hout⟩ := ih (stripKey u :: seen)
        refine ⟨?_, ?_⟩
        · rw [List.map_cons, List.nodup_cons]
          refine ⟨?_, hnd⟩
          intro hmem
          obtain ⟨v, hv, hveq⟩ := List.mem_map.mp hmem
          exact hout v hv (hveq ▸ List.mem_cons_self _ _)
        · intro v hv
          rcases List.mem_cons.mp hv with rfl | hv'
          · exact h
          · intro hmem
            exact hout v hv' (List.mem_cons_of_mem _ hmem)

lemma dedupByKey_filter_seen :
    ∀ (l : List String) (seen : List String) (k : String), k ∈ seen →
      (dedupByKey l seen).filter (fun u => stripKey u == k) = [] := by
  intro l
  induction l with
  | nil => intro seen k _; simp [dedupByKey]
  | cons u rest ih =>
      intro seen k hk
      simp only [dedupByKey]
      by_cases h : stripKey u ∈ seen
      · rw [if_pos h]
        exact ih seen k hk
      · rw [if_neg h]
        have hne : (stripKey u == k) = false := by
          rw [beq_eq_false_iff_ne]
          rintro rfl
          exact h hk
        rw [List.filter_cons, hne]
        simp only [Bool.false_eq_true, if_false]
        exact ih (stripKey u :: seen) k (List.mem_cons_of_mem _ hk)

lemma dedupByKey_filter_take :
    ∀ (l : List String) (seen : List String) (k : String), k ∉ seen →
      (dedupByKey l seen).filter (fun u => stripKey u == k)
        = (l.filter (fun u => stripKey u == k)).take 1 := by
  intro l
  induction l with
  | nil => intro seen k _; simp [dedupByKey]
  | cons u rest ih =>
      intro seen k hk
      simp only [dedupByKey]
      by_cases h : stripKey u ∈ seen
      · rw [if_pos h]
        have hne : (stripKey u == k) = false := by
          rw [beq_eq_false_iff_ne]
          rintro rfl
          exact hk h
        rw [List.filter_cons, hne]
        simp only [Bool.false_eq_true, if_false]
        exact ih seen k hk
      · rw [if_neg h]
        by_cases hek : stripKey u = k
        · have heq : (stripKey u == k) = true := beq_iff_eq.mpr hek
          rw [List.filter_cons, heq, List.filter_cons, heq]
          simp only [if_true]
          rw [dedupByKey_filter_seen rest (stripKey u :: seen) k
            (hek ▸ List.mem_cons_self _ _)]
          simp
        · have hne : (stripKey u == k) = false := beq_eq_false_iff_ne.mpr hek
          rw [List.filter_cons, hne, List.filter_cons, hne]
          simp only [Bool.false_eq_true, if_false]
          refine ih (stripKey u :: seen) k ?_
          intro hmem
          rcases List.mem_cons.mp hmem with rfl | hmem'
          · exact hek rfl
          · exact hk hmem'

/-- Two product images at least 100 px each way whose URLs differ only by
query string. -/
def imgA : ImgEl :=
  { src := some "http://shop.example/p.jpg?v=1", dataSrc := none,
    dataLazySrc := none, naturalWidth := 120, naturalHeight := 130,
    srcset := none }

/-- Second image of the C7 example, same URL up to the query string. -/
def imgB : ImgEl :=
  { src := some "http://shop.example/p.jpg?v=2", dataSrc := none,
    dataLazySrc := none, naturalWidth := 150, naturalHeight := 150,
    srcset := none }

/-- A page holding only the two query-string-variant images. -/
def pageTwoQueryImgs : Page :=
  { imgs := [imgA, imgB], h1 := none, ldScripts := [], expandables := [],
    descTexts := [], metaDescription := none, ogDescription := none }

/-- C7: in the extraction output no two image URLs share a stripped key;
the output is a subsequence of the surviving candidates (so document
order, hence first-seen order, is preserved); for every key the output
keeps exactly the first surviving candidate with that key; and the
concrete two-query-variant page yields exactly the first URL. -/
theorem images_deduped_by_stripped_url :
    (∀ p : Page, (((scrapeGarmentData p).images).map stripKey).Nodup)
    ∧ (∀ p : Page,
        List.Sublist (scrapeGarmentData p).images
          (p.imgs.filterMap candidateUrl))
    ∧ (∀ (p : Page) (k : String),
        ((scrapeGarmentData p).images).filter (fun u => stripKey u == k)
          = ((p.imgs.filterMap candidateUrl).filter
              (fun u => stripKey u == k)).take 1)
    ∧ (scrapeGarmentData pageTwoQueryImgs).images
        = ["http://shop.example/p.jpg?v=1"] := by
  have hrw : ∀ p : Page, (scrapeGarmentData p).images
      = dedupByKey (p.imgs.filterMap candidateUrl) [] := by
    intro p
    show scrapeImagesLoop p.imgs [] = _
    exact scrapeImagesLoop_eq_dedup p.imgs []
  refine ⟨?_, ?_, ?_, ?_⟩
  · intro p
    rw [hrw]
    exact (dedupByKey_keys _ []).1
  · intro p
    rw [hrw]
    exact dedupByKey_sublist _ []
  · intro p k
    rw [hrw]
    exact dedupByKey_filter_take _ [] k (by simp)
  · rfl

lemma candidateUrl_none_of_token (img : ImgEl)
    (h : (containsSub ((primaryUrl img).getD "") "logo"
        || containsSub ((primaryUrl img).getD "") "icon"
        || containsSub ((primaryUrl img).getD "") "sprite") = true) :
    candidateUrl img = none := by
  unfold candidateUrl
  simp [h]

/-- An image whose `src` contains the token `logo`, rendered at 150 by
150 — above the size threshold. -/
def imgLogo : ImgEl :=
  { src := some "http://shop.example/logo-small.png", dataSrc := none,
    dataLazySrc := none, naturalWidth := 150, naturalHeight := 150,
    srcset := none }

/-- C8 amended: the token filter is applied to the element's primary URL
(src or lazy-load data attributes) before srcset resolution, so an element
whose primary URL contains logo, icon or sprite contributes nothing to the
output, regardless of its rendered dimensions and of its position on the
page. -/
theorem primary_url_token_excluded :
    ∀ (xs ys : List ImgEl) (img : ImgEl),
      (containsSub ((primaryUrl img).getD "") "logo"
        || containsSub ((primaryUrl img).getD "") "icon"
        || containsSub ((primaryUrl img).getD "") "sprite") = true →
      scrapeImages (xs ++ img :: ys) = scrapeImages (xs ++ ys) := by
  intro xs ys img h
  show scrapeImagesLoop (xs ++ img :: ys) [] = scrapeImagesLoop (xs ++ ys) []
  rw [scrapeImagesLoop_eq_dedup, scrapeImagesLoop_eq_dedup]
  have hnone := candidateUrl_none_of_token img h
  simp [List.filterMap_append, List.filterMap_cons, hnone]

/-- Witness for the C8 amended theorem: the 150 by 150 logo-src image is
excluded from the output of a page containing only it. -/
theorem primary_url_token_excluded_witness :
    scrapeImages [imgLogo] = scrapeImages [] :=
  primary_url_token_excluded [] [] imgLogo (by decide)

/-- A large product image whose srcset's last (highest-resolution)
candidate URL contains the token `logo` while its src does not. -/
def imgLogoSrcset : ImgEl :=
  { src := some "http://shop.example/product.jpg", dataSrc := none,
    dataLazySrc := none, naturalWidth := 200, naturalHeight := 200,
    srcset := some
      "http://shop.example/product.jpg 1x, http://shop.example/logo-big.jpg 2x" }

/-- A page holding only the srcset-upgraded image. -/
def pageLogoSrcset : Page :=
  { imgs := [imgLogoSrcset], h1 := none, ldScripts := [], expandables := [],
    descTexts := [], metaDescription := none, ogDescription := none }

/-- C8 counterexample: the token check runs before the srcset upgrade, so
the extraction output CAN contain a URL with the substring logo — refuting
the claim that no returned URL contains logo, icon or sprite. -/
theorem output_url_can_contain_token :
    (scrapeGarmentData pageLogoSrcset).images
      = ["http://shop.example/logo-big.jpg"]
    ∧ containsSub "http://shop.example/logo-big.jpg" "logo" = true := by
  exact ⟨rfl, rfl⟩

/-- A page whose only description-bearing source is the meta description
tag with content `c`: no h1, no JSON-LD, no expandable sections, no
description containers, no Open Graph tag. -/
def metaOnlyPage (c : String) : Page :=
  { imgs := [], h1 := none, ldScripts := [], expandables := [],
    descTexts := [], metaDescription := some c, ogDescription := none }

/-- A page whose h1 already contributes a description fragment. -/
def pageH1 : Page :=
  { imgs := [], h1 := some "Classic denim jacket", ldScripts := [],
    expandables := [], descTexts := [], metaDescription := none,
    ogDescription := none }

/-- C9 amended: the meta description is consulted only when steps 1-4
collected nothing (with earlier fragments present, the result is
independent of the meta content); on a meta-only page the returned
description equals the meta content passed through the final cleanup
(length-over-5 filter, 800-char truncation, noise-phrase removal,
whitespace collapse, trim) — and equals the raw content for a typical
clean value. -/
theorem meta_description_fallback :
    (∀ c : String, scrapeDescription (metaOnlyPage c) = finalClean [c])
    ∧ (∀ (p : Page) (c : String), partsPreMeta p ≠ [] →
        scrapeDescription { p with metaDescription := some c }
          = scrapeDescription { p with metaDescription := none })
    ∧ scrapeDescription (metaOnlyPage "Red cotton shirt with buttons")
        = "Red cotton shirt with buttons" := by
  refine ⟨?_, ?_, rfl⟩
  · intro c
    show finalClean (descriptionParts (metaOnlyPage c)) = finalClean [c]
    have hpre : partsPreMeta (metaOnlyPage c) = [] := rfl
    unfold descriptionParts
    rw [hpre]
    by_cases hc : c = ""
    · subst hc
      rfl
    · have hbc : (c != "") = true := bne_iff_ne.mpr hc
      simp [step5, step6, hbc, metaOnlyPage]
  · intro p c hne
    show finalClean (descriptionParts _) = finalClean (descriptionParts _)
    unfold descriptionParts
    have h1 : partsPreMeta { p with metaDescription := some c }
        = partsPreMeta p := rfl
    have h2 : partsPreMeta { p with metaDescription := none }
        = partsPreMeta p := rfl
    rw [h1, h2]
    cases hl : partsPreMeta p with
    | nil => exact absurd hl hne
    | cons a as => simp [step5]

/-- Witness for the C9 amended theorem: with an h1 fragment already
collected, the meta content is ignored entirely. -/
theorem meta_description_fallback_witness :
    scrapeDescription { pageH1 with metaDescription := some "IGNORED META" }
      = scrapeDescription { pageH1 with metaDescription := none } :=
  meta_description_fallback.2.1 pageH1 "IGNORED META" (by decide)

/-- C9 counterexample: the final cleanup strips noise phrases
case-insensitively, so a meta-only page whose content contains the word
expand does not get its content back verbatim — refuting the claim that
the returned description equals the meta tag content. -/
theorem meta_description_not_returned_verbatim :
    scrapeDescription (metaOnlyPage "Jacket you can expand for winter")
      = "Jacket you can for winter"
    ∧ scrapeDescription (metaOnlyPage "Jacket you can expand for winter")
      ≠ "Jacket you can expand for winter" := by
  exact ⟨rfl, by decide⟩

end LouisVton
